import Mathlib

/- Verification development for the soundboard core: the event wire client
   and its manager (src/input.rs) and the audio control engine
   (src/audio.rs). Definitions are shallow embeddings of the Rust source;
   external collaborators (the TCP stream, the postcard codec, the rodio
   audio backend and the file system) enter as explicit parameters. -/

namespace Soundboard

/-- Raw input event record decoded from one wire frame
(src/input.rs, struct InputEventWrapper). The SystemTime timestamp is
modelled as nanoseconds since the epoch; event_type and code are u16
values and value is an i32 value, modelled as Nat and Int because the
client performs no arithmetic on them. -/
structure InputEventWrapper where
  timestamp : Nat
  event_type : Nat
  code : Nat
  value : Int
  deriving DecidableEq

/-- Modelled from the spec: the event-type taxonomy of src/event.rs, which
is not among the given sources. The variant list is exactly the one matched
in InputEventWrapper::as_event (src/input.rs lines 33 to 48). -/
inductive EventType
  | EV_SYN
  | EV_KEY
  | EV_REL
  | EV_ABS
  | EV_MSC
  | EV_SW
  | EV_LED
  | EV_SND
  | EV_REP
  | EV_FF
  | EV_PWR
  | EV_FF_STATUS
  deriving DecidableEq

/-- Modelled from the spec: the numbering of EventType follows the Linux
input-event-codes header, which the source documentation of
InputEventWrapper cites (src/input.rs line 11). -/
def EventType.from_repr (n : Nat) : Option EventType :=
  if n = 0x00 then some EventType.EV_SYN
  else if n = 0x01 then some EventType.EV_KEY
  else if n = 0x02 then some EventType.EV_REL
  else if n = 0x03 then some EventType.EV_ABS
  else if n = 0x04 then some EventType.EV_MSC
  else if n = 0x05 then some EventType.EV_SW
  else if n = 0x11 then some EventType.EV_LED
  else if n = 0x12 then some EventType.EV_SND
  else if n = 0x14 then some EventType.EV_REP
  else if n = 0x15 then some EventType.EV_FF
  else if n = 0x16 then some EventType.EV_PWR
  else if n = 0x17 then some EventType.EV_FF_STATUS
  else none

/-- Classified event (the Event enum of src/event.rs, as dispatched by
InputEventWrapper::as_event). Each category carries the member of that
category found for the raw code, represented by its numeric repr. -/
inductive Event
  | Synchronization (code : Nat)
  | Key (code : Nat)
  | RelativeAxis (code : Nat)
  | AbsoluteAxis (code : Nat)
  | Miscellaneous (code : Nat)
  | Switch (code : Nat)
  | LED (code : Nat)
  | Sound (code : Nat)
  | AutoRepeat (code : Nat)
  | ForceFeedback (code : Nat)
  | ForceFeedbackStatus (code : Nat)
  deriving DecidableEq

/-- Modelled from the spec: the per-category code tables (the from_repr
functions of src/event.rs, not among the given sources) are abstracted as
arbitrary lookup tables, so every theorem quantifying over an EventTables
holds for the actual tables whatever their contents. typeRepr stands for
EventType::from_repr as called by as_event. -/
structure EventTables where
  typeRepr : Nat → Option EventType
  synRepr : Nat → Option Nat
  keyRepr : Nat → Option Nat
  relRepr : Nat → Option Nat
  absRepr : Nat → Option Nat
  mscRepr : Nat → Option Nat
  swRepr : Nat → Option Nat
  ledRepr : Nat → Option Nat
  sndRepr : Nat → Option Nat
  repRepr : Nat → Option Nat
  ffRepr : Nat → Option Nat
  ffStatusRepr : Nat → Option Nat

/-- Table of an EventTables selected by category. The power category has no
table: src/input.rs line 44 returns None for EV_PWR without consulting any. -/
def EventTables.codeRepr (T : EventTables) : EventType → Nat → Option Nat
  | EventType.EV_SYN => T.synRepr
  | EventType.EV_KEY => T.keyRepr
  | EventType.EV_REL => T.relRepr
  | EventType.EV_ABS => T.absRepr
  | EventType.EV_MSC => T.mscRepr
  | EventType.EV_SW => T.swRepr
  | EventType.EV_LED => T.ledRepr
  | EventType.EV_SND => T.sndRepr
  | EventType.EV_REP => T.repRepr
  | EventType.EV_FF => T.ffRepr
  | EventType.EV_PWR => fun _ => none
  | EventType.EV_FF_STATUS => T.ffStatusRepr

/-- Constructor of the classified event for a category and a validated code
member; none for the power category, which as_event policy-excludes. -/
def mkEvent : EventType → Nat → Option Event
  | EventType.EV_SYN, c => some (Event.Synchronization c)
  | EventType.EV_KEY, c => some (Event.Key c)
  | EventType.EV_REL, c => some (Event.RelativeAxis c)
  | EventType.EV_ABS, c => some (Event.AbsoluteAxis c)
  | EventType.EV_MSC, c => some (Event.Miscellaneous c)
  | EventType.EV_SW, c => some (Event.Switch c)
  | EventType.EV_LED, c => some (Event.LED c)
  | EventType.EV_SND, c => some (Event.Sound c)
  | EventType.EV_REP, c => some (Event.AutoRepeat c)
  | EventType.EV_FF, c => some (Event.ForceFeedback c)
  | EventType.EV_PWR, _ => none
  | EventType.EV_FF_STATUS, c => some (Event.ForceFeedbackStatus c)

/-- InputEventWrapper::as_event (src/input.rs lines 32 to 49): look the raw
event_type up, then the raw code up in that category, with the question-mark
early returns rendered as Option.map; EV_PWR returns None outright. -/
def InputEventWrapper.as_event (e : InputEventWrapper) (T : EventTables) : Option Event :=
  match T.typeRepr e.event_type with
  | none => none
  | some EventType.EV_SYN => (T.synRepr e.code).map Event.Synchronization
  | some EventType.EV_KEY => (T.keyRepr e.code).map Event.Key
  | some EventType.EV_REL => (T.relRepr e.code).map Event.RelativeAxis
  | some EventType.EV_ABS => (T.absRepr e.code).map Event.AbsoluteAxis
  | some EventType.EV_MSC => (T.mscRepr e.code).map Event.Miscellaneous
  | some EventType.EV_SW => (T.swRepr e.code).map Event.Switch
  | some EventType.EV_LED => (T.ledRepr e.code).map Event.LED
  | some EventType.EV_SND => (T.sndRepr e.code).map Event.Sound
  | some EventType.EV_REP => (T.repRepr e.code).map Event.AutoRepeat
  | some EventType.EV_FF => (T.ffRepr e.code).map Event.ForceFeedback
  | some EventType.EV_PWR => none
  | some EventType.EV_FF_STATUS => (T.ffStatusRepr e.code).map Event.ForceFeedbackStatus

/-- Outcome of one BufReader::read_until(0x00) call inside
RemoteInputClient::process_event (src/input.rs line 173). ok bytes is the
Ok(n) branch with the event buffer holding the n = bytes.length bytes read
up to and including the delimiter (n = 0 at end of stream); err bytes is
the Err branch, the buffer holding whatever bytes were appended before the
failure. -/
inductive ReadResult
  | ok (bytes : List Nat)
  | err (bytes : List Nat)
  deriving DecidableEq

/-- RemoteInputClient::process_event (src/input.rs lines 168 to 215).
The postcard deserializer is external to the repository, so it enters as
the parameter decode; decode returns none exactly when
postcard::from_bytes_cobs fails on the buffer. Control flow follows the
source: a zero-byte read returns None; a read error only logs and falls
through; the buffer is then deserialized, a failure yielding None and a
success yielding the event. -/
def RemoteInputClient.process_event (decode : List Nat → Option InputEventWrapper) :
    ReadResult → Option InputEventWrapper
  | ReadResult.ok bytes =>
      if bytes = [] then none
      else decode bytes
  | ReadResult.err bytes => decode bytes

/-- Worker loop spawned by RemoteInputClientManager::connect after a
successful client connect (src/input.rs lines 79 to 85): repeatedly call
process_event, forwarding each event into the channel, and exit on the
first None. The list of ReadResult values models the successive reads the
connection serves; the channel send is modelled as always succeeding (the
consuming end is alive). -/
def runWorker (decode : List Nat → Option InputEventWrapper) :
    List ReadResult → List InputEventWrapper
  | [] => []
  | r :: rs =>
      match RemoteInputClient.process_event decode r with
      | none => []
      | some e => e :: runWorker decode rs

/-- Join handle of the worker thread: is_finished is the one observation
the manager makes of it (src/input.rs line 101). -/
structure ThreadHandle where
  finished : Bool
  deriving DecidableEq

/-- Consuming end of the event channel; buffer is what try_iter would
drain right now, in FIFO order. -/
structure ReceiverHandle where
  buffer : List InputEventWrapper
  deriving DecidableEq

/-- RemoteInputClientManager (src/input.rs lines 52 to 55): an optional
worker join handle and an optional consuming channel end. -/
structure RemoteInputClientManager where
  remote_input_thread : Option ThreadHandle
  event_receiver : Option ReceiverHandle
  deriving DecidableEq

/-- RemoteInputClientManager::new (src/input.rs lines 59 to 64). -/
def RemoteInputClientManager.new : RemoteInputClientManager :=
  { remote_input_thread := none, event_receiver := none }

/-- RemoteInputClientManager::connect (src/input.rs lines 67 to 87):
stores a fresh consuming end with nothing buffered yet and the handle of
the freshly spawned worker. -/
def RemoteInputClientManager.connect (_ : RemoteInputClientManager)
    (worker : ThreadHandle) : RemoteInputClientManager :=
  { remote_input_thread := some worker, event_receiver := some { buffer := [] } }

/-- RemoteInputClientManager::disconnect (src/input.rs lines 90 to 93):
drops both the consuming end and the worker handle. -/
def RemoteInputClientManager.disconnect (_ : RemoteInputClientManager) :
    RemoteInputClientManager :=
  { remote_input_thread := none, event_receiver := none }

/-- RemoteInputClientManager::connected (src/input.rs lines 96 to 102):
the consuming end exists and the worker handle exists and is not finished. -/
def RemoteInputClientManager.connected (m : RemoteInputClientManager) : Bool :=
  m.event_receiver.isSome &&
    (match m.remote_input_thread with
     | some h => !h.finished
     | none => false)

/-- RemoteInputClientManager::events (src/input.rs lines 106 to 111):
drain everything buffered on the consuming end, or nothing when no
consuming end exists. -/
def RemoteInputClientManager.events (m : RemoteInputClientManager) :
    List InputEventWrapper :=
  match m.event_receiver with
  | some r => r.buffer
  | none => []

/-- AudioControls (src/audio.rs lines 12 to 16): shared playback state of
one triggered sound. The two AtomicBool fields are Bool, the
Mutex-protected f32 volume is modelled as an exact rational; no float
arithmetic is ever performed on the stored value. -/
structure AudioControls where
  playing : Bool
  stopped : Bool
  volume : Rat
  deriving DecidableEq

/-- AudioControls::default (src/audio.rs lines 18 to 26). -/
def AudioControls.default : AudioControls :=
  { playing := true, stopped := false, volume := 0 }

/-- AudioControls::new (src/audio.rs lines 29 to 35). -/
def AudioControls.new (playing stopped : Bool) (volume : Rat) : AudioControls :=
  { playing := playing, stopped := stopped, volume := volume }

/-- AudioControls::play (src/audio.rs lines 37 to 39). -/
def AudioControls.play (c : AudioControls) : AudioControls :=
  { c with playing := true }

/-- AudioControls::pause (src/audio.rs lines 41 to 43). -/
def AudioControls.pause (c : AudioControls) : AudioControls :=
  { c with playing := false }

/-- AudioControls::stop (src/audio.rs lines 45 to 48). -/
def AudioControls.stop (c : AudioControls) : AudioControls :=
  { c with playing := false, stopped := true }

/-- AudioControls::set_playing (src/audio.rs lines 54 to 56). -/
def AudioControls.set_playing (c : AudioControls) (b : Bool) : AudioControls :=
  { c with playing := b }

/-- AudioControls::set_volume (src/audio.rs lines 62 to 64). -/
def AudioControls.set_volume (c : AudioControls) (v : Rat) : AudioControls :=
  { c with volume := v }

/-- One mutating call on an AudioControls instance: the five mutators of
src/audio.rs (the readers stopped, playing and get_volume are the field
projections and mutate nothing). -/
inductive ControlOp
  | play
  | pause
  | stop
  | set_playing (b : Bool)
  | set_volume (v : Rat)
  deriving DecidableEq

/-- Apply one mutating call. -/
def AudioControls.apply (c : AudioControls) : ControlOp → AudioControls
  | ControlOp.play => c.play
  | ControlOp.pause => c.pause
  | ControlOp.stop => c.stop
  | ControlOp.set_playing b => c.set_playing b
  | ControlOp.set_volume v => c.set_volume v

/-- Apply a finite sequence of mutating calls, first element first. -/
def AudioControls.applyAll (c : AudioControls) : List ControlOp → AudioControls
  | [] => c
  | op :: ops => (c.apply op).applyAll ops

/-- OutputDevice (src/audio.rs lines 71 to 79): the rodio device handle is
external and not consulted by any modelled operation, so it is omitted;
stream and stream_handle are the two optional platform resources, an
acquired resource being represented by an abstract numeric id. -/
structure OutputDevice where
  name : String
  enabled : Bool
  volume : Rat
  muted : Bool
  stream : Option Nat
  stream_handle : Option Nat
  deriving DecidableEq

/-- OutputDevice::new (src/audio.rs lines 82 to 92). -/
def OutputDevice.new (name : String) : OutputDevice :=
  { name := name, enabled := false, volume := 0, muted := false,
    stream := none, stream_handle := none }

/-- OutputDevice::enable (src/audio.rs lines 95 to 115). result is the
outcome of OutputStream::try_from_device, an external rodio call: none for
the Err branch, some (stream id, handle id) for the Ok branch. -/
def OutputDevice.enable (d : OutputDevice) (result : Option (Nat × Nat)) : OutputDevice :=
  if d.enabled then d
  else
    match result with
    | none => { d with enabled := false }
    | some (s, h) =>
        { d with stream := some s, stream_handle := some h, enabled := true }

/-- OutputDevice::disable (src/audio.rs lines 118 to 128): take and drop
both resources, then clear the flag; a no-op when not enabled. -/
def OutputDevice.disable (d : OutputDevice) : OutputDevice :=
  if !d.enabled then d
  else { d with stream_handle := none, stream := none, enabled := false }

/-- OutputDevice::set_volume (src/audio.rs lines 208 to 210). -/
def OutputDevice.set_volume (d : OutputDevice) (v : Rat) : OutputDevice :=
  { d with volume := v }

/-- OutputDevice::toggle_muted (src/audio.rs lines 219 to 221), the
fetch_xor with true. -/
def OutputDevice.toggle_muted (d : OutputDevice) : OutputDevice :=
  { d with muted := xor d.muted true }

/-- OutputDevice::set_muted (src/audio.rs lines 223 to 225). -/
def OutputDevice.set_muted (d : OutputDevice) (b : Bool) : OutputDevice :=
  { d with muted := b }

/-- External collaborators of OutputDevice::play_sound: the file system
(File::open), the rodio decoder (Decoder::new) and the live output sink
(OutputStreamHandle::play_raw). Opened files, decoded sources and the
wrapped pipeline handed to the sink are abstract numeric ids. -/
structure AudioEnv where
  openFile : String → Option Nat
  decodeFile : Nat → Option Nat
  sinkAccepts : Nat → Nat → Bool

/-- OutputDevice::play_sound (src/audio.rs lines 143 to 205). sink is the
list of sources currently handed to this device, in hand-over order; the
result pairs the returned Bool with the sink afterwards. none models the
one panic site, the expect on stream_handle at line 196, reached when the
device is enabled but holds no handle. The pipeline wrapping
(convert_samples, stoppable, pausable, amplify, periodic_access) is pure
construction around the decoded source; its periodic behaviour is
periodicTick below. -/
def OutputDevice.play_sound (d : OutputDevice) (env : AudioEnv) (filename : String)
    (sink : List Nat) : Option (Bool × List Nat) :=
  if !d.enabled then some (false, sink)
  else
    match env.openFile filename with
    | none => some (false, sink)
    | some f =>
        match env.decodeFile f with
        | none => some (false, sink)
        | some src =>
            match d.stream_handle with
            | none => none
            | some h =>
                if env.sinkAccepts h src then some (true, sink ++ [src])
                else some (false, sink)

/-- Observable control state of one pipeline between ticks: the stoppable
wrapper (halted), the pausable wrapper (paused) and the amplify factor.
The factor is a real number standing for the f32 the source computes. -/
structure PipelineState where
  halted : Bool
  paused : Bool
  factor : ℝ

/-- The periodic_access closure of OutputDevice::play_sound
(src/audio.rs lines 172 to 190), run once per 200 ms tick: stop the
stoppable wrapper when the controls are stopped, set the pause state to
the negation of playing, then set the amplify factor to zero when the
device is muted and otherwise to ten to the power of the sum of the sound
volume and the device volume over twenty. -/
noncomputable def periodicTick (controls : AudioControls) (muted : Bool)
    (device_volume : Rat) (p : PipelineState) : PipelineState :=
  let p1 := if controls.stopped then { p with halted := true } else p
  let p2 := { p1 with paused := !controls.playing }
  if muted then { p2 with factor := 0 }
  else
    { p2 with
      factor := (10 : ℝ) ^ (((controls.volume : ℝ) + (device_volume : ℝ)) / 20) }

/-- The decibel-sum gain policy in the words of the spec: the sum of the
two quantities treated as decibel-like values fed into ten to the power of
x over twenty. -/
noncomputable def decibelSumGain (sound_volume device_volume : Rat) : ℝ :=
  (10 : ℝ) ^ (((sound_volume : ℝ) + (device_volume : ℝ)) / 20)

/-- The rival linear-product gain policy in the words of the spec: the
product of the two linear volumes. -/
def linearProductGain (sound_volume device_volume : Rat) : Rat :=
  sound_volume * device_volume

/-- Stream bookkeeping invariant of OutputDevice: the enabled flag holds
exactly when both platform resources are held. -/
def OutputDevice.streamInv (d : OutputDevice) : Prop :=
  d.enabled = true ↔ (d.stream.isSome = true ∧ d.stream_handle.isSome = true)

/-- Concrete event used by the counterexample and witness evaluations:
an EV_KEY release of code 30. -/
def sampleEvent : InputEventWrapper :=
  { timestamp := 0, event_type := 1, code := 30, value := 0 }

/-- Concrete deserializer instance for counterexample and witness
evaluations: the frame body consisting of the single byte 2 deserializes
to sampleEvent, every other buffer fails. The spec (section 4.1) has
decode fail on malformed varints, truncated payloads and empty frames, so
failing buffers exist for the real postcard codec as well. -/
def decodeCex (bytes : List Nat) : Option InputEventWrapper :=
  if bytes = [2] then some sampleEvent else none

/-- Helper: no single mutating call clears the stopped flag. -/
theorem AudioControls.apply_keeps_stopped (c : AudioControls) (op : ControlOp)
    (h : c.stopped = true) : (c.apply op).stopped = true := by
  cases op <;>
    simp [AudioControls.apply, AudioControls.play, AudioControls.pause,
      AudioControls.stop, AudioControls.set_playing, AudioControls.set_volume, h]

/-- Helper: no finite sequence of mutating calls clears the stopped flag. -/
theorem AudioControls.applyAll_keeps_stopped (c : AudioControls)
    (ops : List ControlOp) (h : c.stopped = true) :
    (c.applyAll ops).stopped = true := by
  induction ops generalizing c with
  | nil => exact h
  | cons op ops ih => exact ih _ (AudioControls.apply_keeps_stopped c op h)

/-- C3: AudioControls.stopped is monotone: for every instance and every
finite sequence of play, pause, set_playing, set_volume and stop calls,
once stop has been called every later stopped reading is true, and no
single operation on the instance ever clears stopped. -/
theorem audioControls_stop_monotone :
    (∀ (c : AudioControls) (pre post : List ControlOp),
        (((c.applyAll pre).stop).applyAll post).stopped = true) ∧
    (∀ (c : AudioControls) (op : ControlOp),
        c.stopped = true → (c.apply op).stopped = true) := by
  constructor
  · intro c pre post
    exact AudioControls.applyAll_keeps_stopped _ post rfl
  · exact fun c op h => AudioControls.apply_keeps_stopped c op h

/-- C5: connected is true exactly when a consuming end exists and the
worker handle exists and reports not finished; it is false for a freshly
constructed manager and false immediately after disconnect. -/
theorem manager_connected_iff :
    (∀ m : RemoteInputClientManager,
        m.connected = true ↔
          m.event_receiver.isSome = true ∧
            ∃ h, m.remote_input_thread = some h ∧ h.finished = false) ∧
    RemoteInputClientManager.new.connected = false ∧
    (∀ m : RemoteInputClientManager, m.disconnect.connected = false) := by
  refine ⟨fun m => ?_, rfl, fun m => rfl⟩
  cases hr : m.event_receiver <;> cases ht : m.remote_input_thread <;>
    simp [RemoteInputClientManager.connected, hr, ht]

/-- C9: events returns everything currently buffered on the consuming end
and the empty list whenever no consuming end exists, in particular for a
freshly constructed manager and immediately after disconnect. -/
theorem manager_events_drain :
    (∀ (m : RemoteInputClientManager) (r : ReceiverHandle),
        m.event_receiver = some r → m.events = r.buffer) ∧
    (∀ m : RemoteInputClientManager, m.event_receiver = none → m.events = []) ∧
    RemoteInputClientManager.new.events = [] ∧
    (∀ m : RemoteInputClientManager, m.disconnect.events = []) := by
  refine ⟨fun m r h => ?_, fun m h => ?_, rfl, fun m => rfl⟩ <;>
    simp [RemoteInputClientManager.events, h]

/-- C4: as_event returns none exactly for an unknown event_type, an
unknown code within a known category, or the power category, and in every
other case returns the classified event of that category and code; being a
total function of the embedding it never panics. -/
theorem as_event_classification :
    ∀ (T : EventTables) (e : InputEventWrapper),
      (T.typeRepr e.event_type = none → e.as_event T = none) ∧
      (∀ t, T.typeRepr e.event_type = some t →
          T.codeRepr t e.code = none → e.as_event T = none) ∧
      (T.typeRepr e.event_type = some EventType.EV_PWR → e.as_event T = none) ∧
      (∀ t c, T.typeRepr e.event_type = some t → t ≠ EventType.EV_PWR →
          T.codeRepr t e.code = some c →
          e.as_event T = mkEvent t c ∧ (mkEvent t c).isSome = true) := by
  intro T e
  refine ⟨fun h => ?_, fun t ht hc => ?_, fun h => ?_, fun t c ht hne hc => ?_⟩
  · simp [InputEventWrapper.as_event, h]
  · cases t <;> simp_all [InputEventWrapper.as_event, EventTables.codeRepr]
  · simp [InputEventWrapper.as_event, h]
  · cases t <;> simp_all [InputEventWrapper.as_event, EventTables.codeRepr, mkEvent]

/-- C1 (amended): a frame whose payload fails to decode is logged and
terminates the client: process_event returns none for it exactly as for a
zero-byte read, and the worker loop of the manager forwards no further
events, losing every later frame. -/
theorem process_event_decode_failure_fatal :
    ∀ (decode : List Nat → Option InputEventWrapper) (bytes : List Nat)
      (rest : List ReadResult),
      bytes ≠ [] → decode bytes = none →
      RemoteInputClient.process_event decode (ReadResult.ok bytes) = none ∧
      runWorker decode (ReadResult.ok bytes :: rest) = [] := by
  intro decode bytes rest hne hdec
  have hp : RemoteInputClient.process_event decode (ReadResult.ok bytes) = none := by
    simp [RemoteInputClient.process_event, hne, hdec]
  exact ⟨hp, by simp [runWorker, hp]⟩

/-- Witness for C1 at a concrete input: the frame of the single byte 1
fails to decode under decodeCex and ends the stream. -/
theorem process_event_decode_failure_fatal_witness :
    RemoteInputClient.process_event decodeCex (ReadResult.ok [1]) = none ∧
    runWorker decodeCex [ReadResult.ok [1], ReadResult.ok [2]] = [] :=
  process_event_decode_failure_fatal decodeCex [1] [ReadResult.ok [2]]
    (by decide) (by decide)

/-- C1 counterexample: a nonzero read whose payload fails to decode makes
process_event return none and ends the worker loop, losing the following
frame even though that frame on its own decodes to sampleEvent; so a
decode failure does terminate the client, refuting the claim that only a
zero-byte read ends the event sequence. -/
theorem process_event_decode_failure_cex :
    decodeCex [1] = none ∧
    ([1] : List Nat) ≠ [] ∧
    RemoteInputClient.process_event decodeCex (ReadResult.ok [1]) = none ∧
    runWorker decodeCex [ReadResult.ok [1], ReadResult.ok [2]] = [] ∧
    runWorker decodeCex [ReadResult.ok [2]] = [sampleEvent] := by decide

/-- C2 at the failing input: a read error does not terminate the session.
process_event only logs the error and falls through to deserializing the
bytes already buffered; when those bytes form a decodable frame body the
call returns an event and the worker loop keeps streaming. -/
theorem process_event_read_error_not_fatal :
    RemoteInputClient.process_event decodeCex (ReadResult.err [2]) =
      some sampleEvent ∧
    runWorker decodeCex [ReadResult.err [2], ReadResult.ok [2]] =
      [sampleEvent, sampleEvent] := by decide

/-- C6: play_sound returns false and leaves the sink untouched when the
device is disabled or the file fails to open or decode, and it returns
true exactly when the decoded source was accepted by the live output sink,
the sink then holding exactly the old sounds plus the new source. -/
theorem play_sound_characterization :
    ∀ (d : OutputDevice) (env : AudioEnv) (filename : String) (sink : List Nat),
      (d.enabled = false → d.play_sound env filename sink = some (false, sink)) ∧
      (env.openFile filename = none →
          d.play_sound env filename sink = some (false, sink)) ∧
      (∀ f, env.openFile filename = some f → env.decodeFile f = none →
          d.play_sound env filename sink = some (false, sink)) ∧
      (∀ q, d.play_sound env filename sink = some (true, q) →
          d.enabled = true ∧
            ∃ f src h, env.openFile filename = some f ∧
              env.decodeFile f = some src ∧ d.stream_handle = some h ∧
              env.sinkAccepts h src = true ∧ q = sink ++ [src]) := by
  intro d env filename sink
  refine ⟨fun h => ?_, fun h => ?_, fun f hf hd => ?_, fun q hq => ?_⟩
  · simp [OutputDevice.play_sound, h]
  · by_cases he : d.enabled
    · simp [OutputDevice.play_sound, he, h]
    · simp [OutputDevice.play_sound, he]
  · by_cases he : d.enabled
    · simp [OutputDevice.play_sound, he, hf, hd]
    · simp [OutputDevice.play_sound, he]
  · by_cases he : d.enabled
    · refine ⟨he, ?_⟩
      rcases hof : env.openFile filename with _ | f
      · simp [OutputDevice.play_sound, he, hof] at hq
      rcases hdf : env.decodeFile f with _ | src
      · simp [OutputDevice.play_sound, he, hof, hdf] at hq
      rcases hsh : d.stream_handle with _ | h
      · simp [OutputDevice.play_sound, he, hof, hdf, hsh] at hq
      by_cases hacc : env.sinkAccepts h src
      · refine ⟨f, src, h, rfl, hdf, rfl, hacc, ?_⟩
        simp [OutputDevice.play_sound, he, hof, hdf, hsh, hacc] at hq
        exact hq.symm
      · simp [OutputDevice.play_sound, he, hof, hdf, hsh, hacc] at hq
    · simp [OutputDevice.play_sound, he] at hq

/-- C7: enable on an enabled device and disable on a disabled device are
no-ops, a failed enable leaves the device state unchanged hence disabled
with no stream acquired, and a successful enable followed by disable
releases both resources and clears the flag. -/
theorem enable_disable_idempotent :
    ∀ (d : OutputDevice) (result : Option (Nat × Nat)) (s h : Nat),
      (d.enabled = true → d.enable result = d) ∧
      (d.enabled = false → d.disable = d) ∧
      (d.enabled = false → d.enable none = d) ∧
      (d.enabled = false →
        (d.enable (some (s, h))).enabled = true ∧
        ((d.enable (some (s, h))).disable).enabled = false ∧
        ((d.enable (some (s, h))).disable).stream = none ∧
        ((d.enable (some (s, h))).disable).stream_handle = none) := by
  intro d result s h
  refine ⟨fun hE => ?_, fun hE => ?_, fun hE => ?_, fun hE => ?_⟩
  · simp [OutputDevice.enable, hE]
  · simp [OutputDevice.disable, hE]
  · cases d
    simp_all [OutputDevice.enable]
  · refine ⟨?_, ?_, ?_, ?_⟩ <;>
      simp [OutputDevice.enable, OutputDevice.disable, hE]

/-- C8: on every periodic tick the effective gain follows one policy: zero
when the device is muted, and otherwise the decibel-sum policy, ten to the
power of the sum of the sound volume and the device volume over twenty;
the decibel-sum policy is not the linear-product policy, the two already
differing at volume zero. -/
theorem periodicTick_gain_policy :
    ∀ (controls : AudioControls) (muted : Bool) (device_volume : Rat)
      (p : PipelineState),
      (muted = true → (periodicTick controls muted device_volume p).factor = 0) ∧
      (muted = false →
          (periodicTick controls muted device_volume p).factor =
            decibelSumGain controls.volume device_volume) ∧
      decibelSumGain 0 0 ≠ ((linearProductGain 0 0 : Rat) : ℝ) := by
  intro controls muted device_volume p
  refine ⟨fun hm => ?_, fun hm => ?_, ?_⟩
  · subst hm
    rfl
  · subst hm
    rfl
  · have h1 : decibelSumGain 0 0 = 1 := by
      simp [decibelSumGain]
    have h2 : ((linearProductGain 0 0 : Rat) : ℝ) = 0 := by
      simp [linearProductGain]
    rw [h1, h2]
    exact one_ne_zero

/-- C10: the stream bookkeeping invariant, the enabled flag holding
exactly when both the stream and the stream handle are present, is
established by new and preserved by enable and disable; play_sound does
not modify the device and under the invariant its stream-handle unwrap
cannot panic, play_sound always returning a value. -/
theorem outputDevice_stream_invariant :
    (∀ name, (OutputDevice.new name).streamInv) ∧
    (∀ (d : OutputDevice) (result : Option (Nat × Nat)),
        d.streamInv → (d.enable result).streamInv) ∧
    (∀ d : OutputDevice, d.streamInv → d.disable.streamInv) ∧
    (∀ (d : OutputDevice) (env : AudioEnv) (filename : String) (sink : List Nat),
        d.streamInv → (d.play_sound env filename sink).isSome = true) := by
  refine ⟨fun name => ?_, fun d result hinv => ?_, fun d hinv => ?_,
    fun d env filename sink hinv => ?_⟩
  · simp [OutputDevice.new, OutputDevice.streamInv]
  · unfold OutputDevice.streamInv at hinv ⊢
    by_cases hE : d.enabled
    · simpa [OutputDevice.enable, hE] using hinv
    · cases result with
      | none => simp_all [OutputDevice.enable, hE]
      | some p =>
          obtain ⟨s, h⟩ := p
          simp [OutputDevice.enable, hE]
  · unfold OutputDevice.streamInv at hinv ⊢
    by_cases hE : d.enabled
    · simp [OutputDevice.disable, hE]
    · simpa [OutputDevice.disable, hE] using hinv
  · unfold OutputDevice.streamInv at hinv
    by_cases hE : d.enabled
    · obtain ⟨-, hh⟩ := hinv.mp hE
      obtain ⟨h, hh2⟩ := Option.isSome_iff_exists.mp hh
      rcases hof : env.openFile filename with _ | f
      · simp [OutputDevice.play_sound, hE, hof]
      rcases hdf : env.decodeFile f with _ | src
      · simp [OutputDevice.play_sound, hE, hof, hdf]
      by_cases hacc : env.sinkAccepts h src <;>
        simp [OutputDevice.play_sound, hE, hof, hdf, hh2, hacc]
    · simp [OutputDevice.play_sound, hE]

end Soundboard
